import Mathlib

/-!
Verification of the data-transformation pipeline of the HuBMAP program manager
report (src/app.py): the `determine_type` classifier, the `get_data` fetcher
with its exception handling, the module-level Primary filter, the rename and
groupby/unstack aggregations, and the helper `get_list_of_unique_status`.

Python exceptions are modelled with `Except PyExn`; a pandas DataFrame is
modelled as a `Frame`: an explicit column-name list together with rows given
as association lists from field name to string value (a missing key plays the
role of NaN).  Only string-valued JSON fields become DataFrame cells here,
which matches every field this pipeline reads.
-/

namespace App

/-- Models `determine_type` (src/app.py lines 9-13).  Python `"[" in s` for a
one-character needle is character membership. -/
def determine_type (dataset_type : String) : String :=
  if dataset_type.contains '[' && dataset_type.contains ']' then "Derived"
  else "Primary"

/-- One entry of a record's `status_history`: the only field the source reads
from an entry is `"status"`. -/
structure StatusEntry where
  status : String
deriving DecidableEq

/-- The value of the Python expression `l.insert(i, x)`: the method mutates
the receiver in place and the expression itself evaluates to `None`. -/
def pyListInsertValue (l : List String) (i : Nat) (x : String) :
    Option (List String) :=
  let _mutated : List String := l.take i ++ x :: l.drop i
  none

/-- Models `get_list_of_unique_status` (src/app.py lines 52-57), reading the
`status_history` column of the frame.  The source returns the value of
`unique_statuses.insert(0, "HuBMAP ID")`. -/
def get_list_of_unique_status (status_history_col : List (List StatusEntry)) :
    Option (List String) :=
  let all_statuses := status_history_col.map (fun x => x.map (fun d => d.status))
  let unique_statuses := all_statuses.flatten.dedup
  pyListInsertValue unique_statuses 0 "HuBMAP ID"

/-- A JSON value, as far as this pipeline inspects one.  `other` stands for
any JSON value that is neither a string, an array nor an object (numbers,
booleans, null). -/
inductive Json where
  | str (s : String)
  | arr (elems : List Json)
  | obj (fields : List (String × Json))
  | other

/-- First-match association-list lookup (Python dict access / pandas row
cell; `none` plays the role of a missing key / NaN). -/
def lookupKey {α : Type} : List (String × α) → String → Option α
  | [], _ => none
  | (k, v) :: rest, key => if k = key then some v else lookupKey rest key

/-- The Python exceptions this script can raise. -/
inductive PyExn where
  | valueError
  | keyError
  | typeError
  | attributeError
  | requestException
deriving DecidableEq

/-- The outside world seen by `get_data`: the HTTP status of the response and
the result of `response.json()` (`none` when the body is not valid JSON, in
which case `response.json()` raises a `ValueError` subclass). -/
structure Response where
  status : Nat
  body : Option Json

/-- A pandas row: field name to string value. -/
abbrev Row := List (String × String)

/-- A pandas DataFrame: the column names together with the rows. -/
structure Frame where
  cols : List String
  rows : List Row
deriving DecidableEq

/-- `pd.DataFrame()`: no columns, no rows. -/
def emptyFrame : Frame := ⟨[], []⟩

/-- The fields of a JSON value when it is an object, the shape Python's
dict test distinguishes. -/
def objFields : Json → Option (List (String × Json))
  | .obj fields => some fields
  | _ => none

/-- The row one record (a JSON object) contributes: its string-valued
fields.  A field holding any other value still names a column (the key is
kept by pandas) but its cell is not representable here and reads back as a
missing value. -/
def rowOfFields (fields : List (String × Json)) : Row :=
  fields.filterMap (fun p =>
    match p.2 with
    | .str s => some (p.1, s)
    | _ => none)

/-- Accumulates column names in order of first appearance. -/
def addRowCols {α : Type} (cs : List String) (row : List (String × α)) :
    List String :=
  row.foldl (fun acc p => if p.1 ∈ acc then acc else acc ++ [p.1]) cs

/-- Column names: the union of the records' keys in order of first
appearance, exactly as `pd.DataFrame(list_of_dicts)` forms its columns
(keys whose values are not strings included). -/
def colsOfRows {α : Type} (rows : List (List (String × α))) : List String :=
  rows.foldl addRowCols []

/-- `pd.DataFrame` on a list in which every entry is a dict. -/
def frameOfData (dicts : List (List (String × Json))) : Frame :=
  ⟨colsOfRows dicts, dicts.map rowOfFields⟩

/-- The fields of every entry, when every entry is a dict. -/
def allObjFields : List Json → Option (List (List (String × Json)))
  | [] => some []
  | e :: rest =>
    match objFields e, allObjFields rest with
    | some fs, some rests => some (fs :: rests)
    | _, _ => none

/-- Whether the characters start with `data`. -/
def startsWithData : List Char → Bool
  | 'd' :: 'a' :: 't' :: 'a' :: _ => true
  | _ => false

/-- Whether `data` occurs as a contiguous chunk of the characters. -/
def hasDataChunk : List Char → Bool
  | [] => false
  | c :: rest => startsWithData (c :: rest) || hasDataChunk rest

/-- Python `"data" in json_data` (src/app.py line 32): key membership for a
dict, element membership for a list, substring test for a string, and a
`TypeError` for a non-iterable scalar. -/
def jsonContainsData : Json → Except PyExn Bool
  | .obj fields => .ok (lookupKey fields "data").isSome
  | .arr elems =>
    .ok (elems.any (fun e =>
      match e with
      | .str s => s == "data"
      | _ => false))
  | .str s => .ok (hasDataChunk s.toList)
  | .other => .error .typeError

/-- Python `json_data["data"]` (src/app.py line 34), reached only after the
membership test: dict lookup; indexing a list or string with a string raises
a `TypeError`. -/
def jsonGetData : Json → Except PyExn Json
  | .obj fields =>
    match lookupKey fields "data" with
    | some v => .ok v
    | none => .error .keyError
  | _ => .error .typeError

/-- `pd.DataFrame` applied to the extracted payload.  A list of dicts builds
the record frame.  A list whose first entry is a dict but which also holds
non-dicts raises an `AttributeError` inside pandas' list-of-dict path (not
caught by the handlers at lines 44-49).  A nonempty list starting with a
non-dict becomes a single positional column, labelled by the integer 0 —
written "0" here, a label no lookup of this script ever matches — holding
the entries (only string entries are representable as cells).  A dict
payload builds one column per key from its array values, which pandas
requires to have equal lengths, with string scalar values broadcast; a dict
with only scalar values raises a `ValueError`, as does any other payload
(pandas' "constructor not properly called").  Nested container values
inside a dict payload are beyond this model and contribute no cells. -/
def toFrame : Json → Except PyExn Frame
  | .arr elems =>
    match allObjFields elems with
    | some dicts => .ok (frameOfData dicts)
    | none =>
      match elems with
      | [] => .ok emptyFrame
      | .obj _ :: _ => .error .attributeError
      | _ :: _ =>
        .ok ⟨["0"], elems.map (fun e =>
          match e with
          | .str s => [("0", s)]
          | _ => [])⟩
  | .obj fields =>
    if fields.isEmpty then .ok emptyFrame
    else
      match fields.filterMap (fun p =>
        match p.2 with
        | .arr vs => some vs.length
        | _ => none) with
      | [] => .error .valueError
      | n :: rest =>
        if rest.all (fun m => m == n) then
          .ok ⟨fields.map Prod.fst,
            (List.range n).map (fun i =>
              fields.filterMap (fun p =>
                match p.2 with
                | .arr vs =>
                  match vs[i]? with
                  | some (.str s) => some (p.1, s)
                  | _ => none
                | .str s => some (p.1, s)
                | _ => none))⟩
        else .error .valueError
  | _ => .error .valueError

/-- Column assignment on one row: `df[k] = v` replaces the cell in place when
the key exists and appends the new field otherwise. -/
def rowSet (row : Row) (k v : String) : Row :=
  if row.any (fun p => p.1 == k) then
    row.map (fun p => if p.1 == k then (p.1, v) else p)
  else row ++ [(k, v)]

/-- `df["dataset_type"].apply(determine_type)` together with the assignment to
`df["dataset_status"]` (src/app.py line 36), evaluated row by row: a missing
value (NaN) makes `determine_type` raise a `TypeError`, which the handler at
line 44 does not catch. -/
def assignRows : List Row → Except PyExn (List Row)
  | [] => .ok []
  | row :: rest =>
    match lookupKey row "dataset_type" with
    | some s =>
      match assignRows rest with
      | .ok done => .ok (rowSet row "dataset_status" (determine_type s) :: done)
      | .error e => .error e
    | none => .error .typeError

/-- The whole of line 36: `df["dataset_type"]` raises a `KeyError` when the
column does not exist; otherwise the new `dataset_status` column is added. -/
def assignDatasetStatus (df : Frame) : Except PyExn Frame :=
  if "dataset_type" ∈ df.cols then
    match assignRows df.rows with
    | .ok rows =>
      .ok ⟨if "dataset_status" ∈ df.cols then df.cols
           else df.cols ++ ["dataset_status"], rows⟩
    | .error e => .error e
  else .error .keyError

/-- The `try` block of `get_data` (src/app.py lines 26-43):
`raise_for_status` raises for an error status, `response.json()` raises a
`ValueError` for an invalid body, a missing `"data"` key raises a `KeyError`,
and otherwise the frame is built and classified. -/
def get_data_result (resp : Response) : Except PyExn Frame :=
  if 400 ≤ resp.status then .error .requestException
  else
    match resp.body with
    | none => .error .valueError
    | some json_data =>
      match jsonContainsData json_data with
      | .error e => .error e
      | .ok true =>
        match jsonGetData json_data with
        | .error e => .error e
        | .ok v =>
          match toFrame v with
          | .error e => .error e
          | .ok df => assignDatasetStatus df
      | .ok false => .error .keyError

/-- `get_data` (src/app.py lines 16-49): the `except (ValueError, KeyError)`
and `except requests.RequestException` handlers return `pd.DataFrame()`;
any other exception (such as a `TypeError` from line 36) propagates. -/
def get_data (resp : Response) : Except PyExn Frame :=
  match get_data_result resp with
  | .ok df => .ok df
  | .error .valueError => .ok emptyFrame
  | .error .keyError => .ok emptyFrame
  | .error .requestException => .ok emptyFrame
  | .error e => .error e

/-- C1: for every record, the classifier returns "Derived" exactly when the
`dataset_type` string contains at least one opening and at least one closing
bracket character, in any order; otherwise it returns "Primary". -/
theorem determine_type_spec (s : String) :
    (determine_type s = "Derived" ↔ (s.contains '[' ∧ s.contains ']')) ∧
    (determine_type s = "Primary" ↔ ¬(s.contains '[' ∧ s.contains ']')) := by
  unfold determine_type
  by_cases h1 : s.contains '[' <;> by_cases h2 : s.contains ']' <;>
    simp [h1, h2]

/-- C9: for every input, `get_list_of_unique_status` returns `None`, because
it returns the value of `list.insert`, which is always `None`. -/
theorem get_list_of_unique_status_none (col : List (List StatusEntry)) :
    get_list_of_unique_status col = none := rfl

/-- C2: every Fetcher failure scenario, that is an error HTTP status, a body
that is not valid JSON, or a parsed JSON object without a top-level "data"
key, makes `get_data` return the empty DataFrame instead of letting the
exception propagate. -/
theorem get_data_failure_empty (resp : Response)
    (h : 400 ≤ resp.status ∨ resp.body = none ∨
      ∃ fields, resp.body = some (Json.obj fields) ∧
        lookupKey fields "data" = none) :
    get_data resp = .ok emptyFrame := by
  unfold get_data get_data_result
  rcases h with h | h | ⟨fields, hb, hk⟩
  · simp [h]
  · by_cases hs : 400 ≤ resp.status <;> simp [hs, h]
  · by_cases hs : 400 ≤ resp.status <;> simp [hs, hb, jsonContainsData, hk]

def respBadStatus : Response := ⟨500, some (Json.obj [("data", Json.arr [])])⟩

def respBadJson : Response := ⟨200, none⟩

def respNoData : Response := ⟨200, some (Json.obj [("count", Json.other)])⟩

/-- C2 witness: the three concrete failure scenarios (HTTP 500, invalid JSON
body, JSON object without "data") each yield the empty frame. -/
theorem get_data_failure_empty_witness :
    get_data respBadStatus = .ok emptyFrame ∧
    get_data respBadJson = .ok emptyFrame ∧
    get_data respNoData = .ok emptyFrame :=
  ⟨get_data_failure_empty respBadStatus (Or.inl (by decide)),
   get_data_failure_empty respBadJson (Or.inr (Or.inl rfl)),
   get_data_failure_empty respNoData (Or.inr (Or.inr ⟨_, rfl, rfl⟩))⟩

def respMissingField : Response :=
  ⟨200, some (Json.obj
    [("data", Json.arr [Json.obj [("group_name", Json.str "TMC")]])])⟩

/-- C7 counterexample: a successful fetch whose records all lack
`dataset_type` does NOT raise an uncaught missing-field error; the
`KeyError` from the missing column is caught by the `except (ValueError,
KeyError)` handler at line 44 and `get_data` returns the empty frame. -/
theorem missing_field_swallowed_counterexample :
    get_data respMissingField = .ok emptyFrame := rfl

/-- JSON values whose cells behave like classification inputs in Python:
a string classifies normally, while a scalar (number, boolean, null — and
NaN, the reading a missing key gets) makes `"[" in value` raise a
`TypeError`.  Container-valued cells, for which Python's `in` is a
membership test instead, are outside this predicate. -/
def strOrScalar : Json → Bool
  | .str _ => true
  | .other => true
  | _ => false

lemma allObjFields_map (dicts : List (List (String × Json))) :
    allObjFields (dicts.map Json.obj) = some dicts := by
  induction dicts with
  | nil => rfl
  | cons fs rest ih => simp [allObjFields, objFields, ih]

lemma assignRows_error :
    ∀ rows : List Row,
      (∃ r ∈ rows, lookupKey r "dataset_type" = none) →
      assignRows rows = .error .typeError := by
  intro rows
  induction rows with
  | nil => intro h; simp at h
  | cons row rest ih =>
    intro h
    rcases h with ⟨r, hr, hnone⟩
    rcases List.mem_cons.mp hr with heq | hmem
    · subst heq
      simp [assignRows, hnone]
    · cases hcase : lookupKey row "dataset_type" with
      | none => simp [assignRows, hcase]
      | some s => simp [assignRows, hcase, ih ⟨r, hmem, hnone⟩]

/-- C7 amended: for records fetched as JSON objects, when no record carries
the `dataset_type` key the missing-column `KeyError` is silently converted
into the empty frame by the line 44 handler; only when the column exists
but some record (whose fields hold strings or scalars) lacks a usable value
does an uncaught `TypeError` escape `get_data`. -/
theorem missing_field_amended (status : Nat) (fields : List (String × Json))
    (dicts : List (List (String × Json)))
    (hs : status < 400)
    (hd : lookupKey fields "data" = some (Json.arr (dicts.map Json.obj))) :
    ("dataset_type" ∉ (frameOfData dicts).cols →
      get_data ⟨status, some (Json.obj fields)⟩ = .ok emptyFrame) ∧
    ((∀ fs ∈ dicts, ∀ p ∈ fs, strOrScalar p.2 = true) →
      "dataset_type" ∈ (frameOfData dicts).cols →
      (∃ row ∈ (frameOfData dicts).rows, lookupKey row "dataset_type" = none) →
      get_data ⟨status, some (Json.obj fields)⟩ = .error .typeError) := by
  have hs' : ¬ 400 ≤ status := Nat.not_le.mpr hs
  constructor
  · intro hmem
    unfold get_data get_data_result
    simp [hs', jsonContainsData, jsonGetData, hd, toFrame, allObjFields_map,
      assignDatasetStatus, hmem]
  · intro _ hmem hrow
    unfold get_data get_data_result
    simp [hs', jsonContainsData, jsonGetData, hd, toFrame, allObjFields_map,
      assignDatasetStatus, hmem, assignRows_error _ hrow]

def respMixedField : Response :=
  ⟨200, some (Json.obj
    [("data", Json.arr
      [Json.obj [("dataset_type", Json.str "RNAseq")],
       Json.obj [("group_name", Json.str "TMC")]])])⟩

/-- C7 amended witness: with no `dataset_type` at all the error is swallowed
and the frame is empty; with the column present but one record lacking the
value, an uncaught `TypeError` escapes. -/
theorem missing_field_amended_witness :
    get_data respMissingField = .ok emptyFrame ∧
    get_data respMixedField = .error PyExn.typeError := by
  constructor
  · exact (missing_field_amended 200
      [("data", Json.arr [Json.obj [("group_name", Json.str "TMC")]])]
      [[("group_name", Json.str "TMC")]]
      (by decide) rfl).1 (by decide)
  · exact (missing_field_amended 200
      [("data", Json.arr
        [Json.obj [("dataset_type", Json.str "RNAseq")],
         Json.obj [("group_name", Json.str "TMC")]])]
      [[("dataset_type", Json.str "RNAseq")],
       [("group_name", Json.str "TMC")]]
      (by decide) rfl).2 (by decide) (by decide)
      ⟨[("group_name", "TMC")], by decide, rfl⟩

/-- `data[data[col] == val].copy()` (src/app.py line 61): indexing a frame on
a column it does not have raises a `KeyError`; otherwise the rows whose cell
equals `val` are kept (a NaN cell compares unequal). -/
def maskFilterEq (data : Frame) (col val : String) : Except PyExn Frame :=
  if col ∈ data.cols then
    .ok ⟨data.cols, data.rows.filter (fun row => lookupKey row col == some val)⟩
  else .error .keyError

/-- What `df.rename(columns=m)` does to one column name. -/
def applyRenameKey (m : List (String × String)) (k : String) : String :=
  (lookupKey m k).getD k

/-- `df.rename(columns=m)` on one row. -/
def renameRow (m : List (String × String)) (row : Row) : Row :=
  row.map (fun p => (applyRenameKey m p.1, p.2))

/-- `df.rename(columns=m, inplace=True)` (src/app.py lines 80-82, 108,
144-151): keys absent from the frame are ignored. -/
def renameCols (m : List (String × String)) (df : Frame) : Frame :=
  ⟨df.cols.map (applyRenameKey m), df.rows.map (renameRow m)⟩

/-- The rename map of src/app.py lines 80-82 and 108. -/
def renameMapA : List (String × String) :=
  [("dataset_type", "Dataset Type"), ("group_name", "Group Name")]

/-- The rename map of src/app.py lines 144-151. -/
def renameMapB : List (String × String) :=
  [("dataset_type", "Dataset Type"), ("group_name", "Group Name"),
   ("status", "Status")]

/-- A count matrix: row labels, column labels, and the count at each pair of
labels. -/
structure Agg where
  rows : List String
  cols : List String
  cell : String → String → Nat

/-- How many grouped pairs equal `(r, c)`. -/
def countPair (pairs : List (String × String)) (r c : String) : Nat :=
  (pairs.filter (fun p => p.1 == r && p.2 == c)).length

/-- A kernel-reducible decision procedure for the string order, so that the
pipeline stays evaluable on concrete report data. -/
instance (priority := 2000) strDecLE : DecidableRel (fun a b : String => a ≤ b) :=
  fun a b => decidable_of_iff (a.toList ≤ b.toList) String.le_iff_toList_le.symm

/-- Distinct values sorted ascending, as pandas `groupby` (sort=True, the
default) and `unstack` lay out the index levels. -/
def sortedDedup (xs : List String) : List String :=
  List.insertionSort (fun a b => a ≤ b) xs.dedup

/-- The (row key, column key) pairs `groupby` actually groups: rows whose key
cell is NaN are dropped (`dropna=True`, the default). -/
def groupPairs (df : Frame) (rc cc : String) : List (String × String) :=
  df.rows.filterMap (fun row =>
    match lookupKey row rc, lookupKey row cc with
    | some a, some b => some (a, b)
    | _, _ => none)

/-- `df.groupby([rc, cc]).size().unstack(fill_value=0)` (src/app.py lines 85,
111, 154): a missing grouping column raises a `KeyError`; otherwise both
index levels come out sorted ascending and every absent combination is 0. -/
def groupbySizeUnstack (df : Frame) (rc cc : String) : Except PyExn Agg :=
  if rc ∈ df.cols ∧ cc ∈ df.cols then
    .ok ⟨sortedDedup ((groupPairs df rc cc).map Prod.fst),
         sortedDedup ((groupPairs df rc cc).map Prod.snd),
         fun r c => countPair (groupPairs df rc cc) r c⟩
  else .error .keyError

/-- `agg_df.sum(axis=1)` for one row label. -/
def rowTotal (a : Agg) (r : String) : Nat :=
  (a.cols.map (fun c => a.cell r c)).sum

/-- Lines 88-90 (and 157-159): `agg_df["Total"] = agg_df.sum(axis=1)`, then
`sort_values(by="Total", ascending=False)`, then `drop(columns="Total")`.
The sums are taken over the columns present before the assignment, so a
pre-existing column literally named "Total" contributes to the sort key, is
overwritten by the assignment, and is then dropped.  pandas' default sort
kind (quicksort) is documented as unstable, so the order among rows with
equal totals is implementation defined; the insertion sort below realises
one admissible descending order, and the theorems below assert only
consequences that hold for every admissible order (weak descending
sortedness, label membership, cells, totals). -/
def addTotalSortDrop (a : Agg) : Agg :=
  ⟨List.insertionSort (fun r1 r2 => rowTotal a r2 ≤ rowTotal a r1) a.rows,
   a.cols.filter (fun c => !(c == "Total")),
   a.cell⟩

/-- `agg_df.sort_index(axis=1)` (src/app.py lines 93, 114, 162). -/
def sortColsAsc (a : Agg) : Agg :=
  ⟨a.rows, List.insertionSort (fun a b => a ≤ b) a.cols, a.cell⟩

/-- The first aggregation (src/app.py lines 85-93): Group Name rows by
Dataset Type columns, total-sorted rows, sorted columns. -/
def aggGroupDataset (df : Frame) : Except PyExn Agg :=
  match groupbySizeUnstack df "Group Name" "Dataset Type" with
  | .ok g => .ok (sortColsAsc (addTotalSortDrop g))
  | .error e => .error e

/-- The second aggregation (src/app.py lines 111-114): Dataset Type rows by
Group Name columns, no total sort. -/
def aggDatasetGroup (df : Frame) : Except PyExn Agg :=
  match groupbySizeUnstack df "Dataset Type" "Group Name" with
  | .ok g => .ok (sortColsAsc g)
  | .error e => .error e

/-- The third aggregation (src/app.py lines 154-162): Dataset Type rows by
Status columns, total-sorted rows, sorted columns. -/
def aggDatasetStatus (df : Frame) : Except PyExn Agg :=
  match groupbySizeUnstack df "Dataset Type" "Status" with
  | .ok g => .ok (sortColsAsc (addTotalSortDrop g))
  | .error e => .error e

/-- The module-level script from line 61 through line 162: filter to
Primary, then the three aggregations, with the in-place renames mutating the
shared `df` between them exactly as the source does. -/
def scriptPipeline (data : Frame) : Except PyExn (Agg × Agg × Agg) :=
  match maskFilterEq data "dataset_status" "Primary" with
  | .error e => .error e
  | .ok df0 =>
    let df1 := renameCols renameMapA df0
    match aggGroupDataset df1 with
    | .error e => .error e
    | .ok a1 =>
      let df2 := renameCols renameMapA df1
      match aggDatasetGroup df2 with
      | .error e => .error e
      | .ok a2 =>
        let df3 := renameCols renameMapB df2
        match aggDatasetStatus df3 with
        | .error e => .error e
        | .ok a3 => .ok (a1, a2, a3)

/-- The first aggregation computed alone on the original input: filter, the
section's own rename, then the aggregation. -/
def aloneGroupDataset (data : Frame) : Except PyExn Agg :=
  match maskFilterEq data "dataset_status" "Primary" with
  | .ok df => aggGroupDataset (renameCols renameMapA df)
  | .error e => .error e

/-- The second aggregation computed alone on the original input. -/
def aloneDatasetGroup (data : Frame) : Except PyExn Agg :=
  match maskFilterEq data "dataset_status" "Primary" with
  | .ok df => aggDatasetGroup (renameCols renameMapA df)
  | .error e => .error e

/-- The third aggregation computed alone on the original input. -/
def aloneDatasetStatus (data : Frame) : Except PyExn Agg :=
  match maskFilterEq data "dataset_status" "Primary" with
  | .ok df => aggDatasetStatus (renameCols renameMapB df)
  | .error e => .error e

/-- How many fetched records are classified Primary. -/
def primaryCount (data : Frame) : Nat :=
  (data.rows.filter (fun row =>
    lookupKey row "dataset_status" == some "Primary")).length

/-- The sum of every cell of the matrix. -/
def sumCells (a : Agg) : Nat :=
  (a.rows.map (fun r => (a.cols.map (fun c => a.cell r c)).sum)).sum

def resp500 : Response := ⟨500, none⟩

/-- C3 (code bug evidence): a fetcher failure makes `get_data` return the
empty DataFrame, but the very next line, `data[data["dataset_status"] ==
"Primary"]`, raises an uncaught `KeyError` because `pd.DataFrame()` has no
columns — the report errors out instead of rendering zero datasets.  The
aggregation itself, on an empty frame that does have the grouping columns,
does return the zero-row zero-column matrix the claim describes. -/
theorem empty_fetch_pipeline_raises :
    get_data resp500 = .ok emptyFrame ∧
    scriptPipeline emptyFrame = .error PyExn.keyError ∧
    Except.map Agg.rows
      (groupbySizeUnstack ⟨["Group Name", "Dataset Type"], []⟩
        "Group Name" "Dataset Type") = .ok [] ∧
    Except.map Agg.cols
      (groupbySizeUnstack ⟨["Group Name", "Dataset Type"], []⟩
        "Group Name" "Dataset Type") = .ok [] := by
  refine ⟨rfl, rfl, ?_, ?_⟩ <;> rfl

lemma sortedDedup_sorted (xs : List String) :
    (sortedDedup xs).Sorted (· ≤ ·) :=
  List.sorted_insertionSort _ _

lemma sortedDedup_nodup (xs : List String) : (sortedDedup xs).Nodup :=
  ((List.perm_insertionSort _ _).nodup_iff).mpr xs.nodup_dedup

lemma mem_sortedDedup {x : String} {xs : List String} :
    x ∈ sortedDedup xs ↔ x ∈ xs := by
  unfold sortedDedup
  rw [(List.perm_insertionSort _ _).mem_iff, List.mem_dedup]

lemma sortedDedup_perm_eq {xs ys : List String} (h : xs.Perm ys) :
    sortedDedup xs = sortedDedup ys := by
  refine List.eq_of_perm_of_sorted ?_ (sortedDedup_sorted xs)
    (sortedDedup_sorted ys)
  exact (List.perm_insertionSort _ _).trans
    (h.dedup.trans (List.perm_insertionSort _ _).symm)

/-- The output of the total sort is weakly descending by the sort key — a
consequence that holds however the sort resolves ties, so it is true of the
program no matter which sort kind pandas runs. -/
lemma insertionSort_byTotal_sorted (total : String → Nat) (l : List String) :
    (List.insertionSort (fun r1 r2 => total r2 ≤ total r1) l).Sorted
      (fun r1 r2 => total r2 ≤ total r1) := by
  haveI : IsTotal String (fun r1 r2 => total r2 ≤ total r1) :=
    ⟨fun a b => Nat.le_total (total b) (total a)⟩
  haveI : IsTrans String (fun r1 r2 => total r2 ≤ total r1) :=
    ⟨fun a b c h1 h2 => Nat.le_trans h2 h1⟩
  exact List.sorted_insertionSort _ l

lemma mem_groupPairs {df : Frame} {rc cc : String} {p : String × String} :
    p ∈ groupPairs df rc cc ↔
      ∃ row ∈ df.rows,
        lookupKey row rc = some p.1 ∧ lookupKey row cc = some p.2 := by
  unfold groupPairs
  rw [List.mem_filterMap]
  constructor
  · rintro ⟨row, hrow, hm⟩
    refine ⟨row, hrow, ?_⟩
    revert hm
    cases h1 : lookupKey row rc with
    | none => intro hm; simp at hm
    | some a =>
      cases h2 : lookupKey row cc with
      | none => intro hm; simp at hm
      | some b =>
        intro hm
        cases hm
        exact ⟨rfl, rfl⟩
  · rintro ⟨row, hrow, h1, h2⟩
    exact ⟨row, hrow, by simp [h1, h2]⟩

lemma groupbySizeUnstack_ok {df : Frame} {rc cc : String} {g : Agg}
    (h : groupbySizeUnstack df rc cc = .ok g) :
    g.rows = sortedDedup ((groupPairs df rc cc).map Prod.fst) ∧
    g.cols = sortedDedup ((groupPairs df rc cc).map Prod.snd) ∧
    g.cell = fun r c => countPair (groupPairs df rc cc) r c := by
  unfold groupbySizeUnstack at h
  split at h
  · injection h with h
    subst h
    exact ⟨rfl, rfl, rfl⟩
  · simp at h

lemma aggGroupDataset_ok {df : Frame} {a : Agg}
    (h : aggGroupDataset df = .ok a) :
    ∃ g, groupbySizeUnstack df "Group Name" "Dataset Type" = .ok g ∧
      a = sortColsAsc (addTotalSortDrop g) := by
  unfold aggGroupDataset at h
  cases hg : groupbySizeUnstack df "Group Name" "Dataset Type" with
  | ok g =>
    rw [hg] at h
    injection h with h
    exact ⟨g, rfl, h.symm⟩
  | error e => rw [hg] at h; simp at h

lemma aggDatasetGroup_ok {df : Frame} {a : Agg}
    (h : aggDatasetGroup df = .ok a) :
    ∃ g, groupbySizeUnstack df "Dataset Type" "Group Name" = .ok g ∧
      a = sortColsAsc g := by
  unfold aggDatasetGroup at h
  cases hg : groupbySizeUnstack df "Dataset Type" "Group Name" with
  | ok g =>
    rw [hg] at h
    injection h with h
    exact ⟨g, rfl, h.symm⟩
  | error e => rw [hg] at h; simp at h

lemma aggDatasetStatus_ok {df : Frame} {a : Agg}
    (h : aggDatasetStatus df = .ok a) :
    ∃ g, groupbySizeUnstack df "Dataset Type" "Status" = .ok g ∧
      a = sortColsAsc (addTotalSortDrop g) := by
  unfold aggDatasetStatus at h
  cases hg : groupbySizeUnstack df "Dataset Type" "Status" with
  | ok g =>
    rw [hg] at h
    injection h with h
    exact ⟨g, rfl, h.symm⟩
  | error e => rw [hg] at h; simp at h

/-- Shared reasoning for the two aggregations that total-sort their rows:
given that the literal string "Total" is not among the observed column
values, the columns survive the Total bookkeeping unchanged and the rows
come out weakly descending by row total. -/
lemma totalSorted_rows {df : Frame} {rc cc : String} {g : Agg}
    (hg : groupbySizeUnstack df rc cc = .ok g)
    (hT : ∀ row ∈ df.rows, lookupKey row cc ≠ some "Total") :
    (sortColsAsc (addTotalSortDrop g)).cols = g.cols ∧
    (sortColsAsc (addTotalSortDrop g)).rows.Sorted
      (fun r1 r2 => rowTotal (sortColsAsc (addTotalSortDrop g)) r2
        ≤ rowTotal (sortColsAsc (addTotalSortDrop g)) r1) := by
  obtain ⟨_, hgc, _⟩ := groupbySizeUnstack_ok hg
  have hnot : ∀ c ∈ g.cols, (!(c == "Total")) = true := by
    intro c hc
    rw [hgc, mem_sortedDedup, List.mem_map] at hc
    obtain ⟨p, hp, hpc⟩ := hc
    rw [mem_groupPairs] at hp
    obtain ⟨row, hrow, _, h2⟩ := hp
    rw [Bool.not_eq_true', beq_eq_false_iff_ne]
    intro hceq
    exact hT row hrow (by rw [h2, hpc, hceq])
  have hfilter : g.cols.filter (fun c => !(c == "Total")) = g.cols :=
    List.filter_eq_self.mpr hnot
  have hsorted_gcols : g.cols.Sorted (· ≤ ·) := by
    rw [hgc]; exact sortedDedup_sorted _
  have hacols : (sortColsAsc (addTotalSortDrop g)).cols = g.cols := by
    simp only [sortColsAsc, addTotalSortDrop]
    rw [hfilter]
    exact List.Sorted.insertionSort_eq hsorted_gcols
  refine ⟨hacols, ?_⟩
  have htot_eq : rowTotal (sortColsAsc (addTotalSortDrop g)) = rowTotal g := by
    funext r
    rw [rowTotal, rowTotal, hacols]
    rfl
  rw [htot_eq]
  exact insertionSort_byTotal_sorted (rowTotal g) g.rows

/-- C4 counterexample: three concrete inputs on which the claimed ordering
fails.  First, a tie between groups Zed and Alpha (equal totals) comes out
in ascending label order Alpha, Zed, not in first-seen order Zed, Alpha —
deterministic at this input, where numpy sorts the two-element key array
with its small-array insertion sort and pandas' descending path reverses
the array before and the indexer after, preserving the incoming tie order.
Second, the middle aggregation does not total-sort at all: its rows stay in
ascending label order A, B even though B has the larger total.  Third, a
column literally named "Total" corrupts the sort key: the rows come out X, Y
although X's total over the surviving columns is 0 and Y's is 1, so they
are not even weakly descending by the totals of the final matrix. -/
theorem agg_ordering_counterexample :
    Except.map Agg.rows (aggGroupDataset
      ⟨["Group Name", "Dataset Type"],
       [[("Group Name", "Zed"), ("Dataset Type", "T")],
        [("Group Name", "Alpha"), ("Dataset Type", "T")]]⟩) =
      .ok ["Alpha", "Zed"] ∧
    Except.map (fun a => (rowTotal a "Alpha", rowTotal a "Zed"))
      (aggGroupDataset
        ⟨["Group Name", "Dataset Type"],
         [[("Group Name", "Zed"), ("Dataset Type", "T")],
          [("Group Name", "Alpha"), ("Dataset Type", "T")]]⟩) = .ok (1, 1) ∧
    Except.map Agg.rows (aggDatasetGroup
      ⟨["Dataset Type", "Group Name"],
       [[("Dataset Type", "B"), ("Group Name", "X")],
        [("Dataset Type", "B"), ("Group Name", "X")],
        [("Dataset Type", "A"), ("Group Name", "X")]]⟩) = .ok ["A", "B"] ∧
    Except.map (fun a => (rowTotal a "A", rowTotal a "B"))
      (aggDatasetGroup
        ⟨["Dataset Type", "Group Name"],
         [[("Dataset Type", "B"), ("Group Name", "X")],
          [("Dataset Type", "B"), ("Group Name", "X")],
          [("Dataset Type", "A"), ("Group Name", "X")]]⟩) = .ok (1, 2) ∧
    Except.map Agg.rows (aggGroupDataset
      ⟨["Group Name", "Dataset Type"],
       [[("Group Name", "X"), ("Dataset Type", "Total")],
        [("Group Name", "X"), ("Dataset Type", "Total")],
        [("Group Name", "Y"), ("Dataset Type", "A")]]⟩) = .ok ["X", "Y"] ∧
    Except.map (fun a => (rowTotal a "X", rowTotal a "Y"))
      (aggGroupDataset
        ⟨["Group Name", "Dataset Type"],
         [[("Group Name", "X"), ("Dataset Type", "Total")],
          [("Group Name", "X"), ("Dataset Type", "Total")],
          [("Group Name", "Y"), ("Dataset Type", "A")]]⟩) = .ok (0, 1) := by
  refine ⟨?_, ?_, ?_, ?_, ?_, ?_⟩ <;> rfl

/-- C4 amended: in every aggregation the columns are sorted ascending.  The
first and third aggregations sort their rows descending by row total —
with ties left in an implementation-defined order, pandas' default
quicksort being unstable, so only weak descending sortedness is asserted —
and only when no observed column value is the literal string "Total" (such
a column is overwritten by the bookkeeping Total column and dropped).  The
second aggregation leaves its rows in ascending label order. -/
theorem agg_ordering_amended (df : Frame) :
    (∀ a, aggGroupDataset df = .ok a →
      a.cols.Sorted (· ≤ ·) ∧
      ((∀ row ∈ df.rows, lookupKey row "Dataset Type" ≠ some "Total") →
        a.rows.Sorted (fun r1 r2 => rowTotal a r2 ≤ rowTotal a r1))) ∧
    (∀ a, aggDatasetGroup df = .ok a →
      a.cols.Sorted (· ≤ ·) ∧ a.rows.Sorted (· ≤ ·)) ∧
    (∀ a, aggDatasetStatus df = .ok a →
      a.cols.Sorted (· ≤ ·) ∧
      ((∀ row ∈ df.rows, lookupKey row "Status" ≠ some "Total") →
        a.rows.Sorted (fun r1 r2 => rowTotal a r2 ≤ rowTotal a r1))) := by
  refine ⟨?_, ?_, ?_⟩
  · intro a h
    obtain ⟨g, hg, ha⟩ := aggGroupDataset_ok h
    subst ha
    exact ⟨List.sorted_insertionSort _ _,
      fun hT => (totalSorted_rows hg hT).2⟩
  · intro a h
    obtain ⟨g, hg, ha⟩ := aggDatasetGroup_ok h
    subst ha
    obtain ⟨hgr, _, _⟩ := groupbySizeUnstack_ok hg
    refine ⟨List.sorted_insertionSort _ _, ?_⟩
    show g.rows.Sorted (· ≤ ·)
    rw [hgr]
    exact sortedDedup_sorted _
  · intro a h
    obtain ⟨g, hg, ha⟩ := aggDatasetStatus_ok h
    subst ha
    exact ⟨List.sorted_insertionSort _ _,
      fun hT => (totalSorted_rows hg hT).2⟩

/-- Extracts the matrix from a successful aggregation. -/
def aggOrD (e : Except PyExn Agg) : Agg :=
  match e with
  | .ok a => a
  | .error _ => ⟨[], [], fun _ _ => 0⟩

/-- A filtered, renamed frame with three Primary records, used to exercise
the aggregations at a concrete input. -/
def dfW4 : Frame :=
  ⟨["Group Name", "Dataset Type", "Status"],
   [[("Group Name", "TMC"), ("Dataset Type", "RNAseq"), ("Status", "Published")],
    [("Group Name", "TMC"), ("Dataset Type", "ATAC"), ("Status", "Published")],
    [("Group Name", "CODCC"), ("Dataset Type", "RNAseq"), ("Status", "New")]]⟩

/-- C4 amended witness: the ordering guarantees at the concrete frame
`dfW4`. -/
theorem agg_ordering_amended_witness :
    (aggOrD (aggGroupDataset dfW4)).cols.Sorted (· ≤ ·) ∧
    (aggOrD (aggGroupDataset dfW4)).rows.Sorted
      (fun r1 r2 => rowTotal (aggOrD (aggGroupDataset dfW4)) r2
        ≤ rowTotal (aggOrD (aggGroupDataset dfW4)) r1) ∧
    (aggOrD (aggDatasetGroup dfW4)).rows.Sorted (· ≤ ·) ∧
    (aggOrD (aggDatasetStatus dfW4)).rows.Sorted
      (fun r1 r2 => rowTotal (aggOrD (aggDatasetStatus dfW4)) r2
        ≤ rowTotal (aggOrD (aggDatasetStatus dfW4)) r1) := by
  obtain ⟨h1, h2, h3⟩ := agg_ordering_amended dfW4
  refine ⟨(h1 _ rfl).1, (h1 _ rfl).2 (by decide), (h2 _ rfl).2,
    (h3 _ rfl).2 (by decide)⟩

lemma countPair_cons (p : String × String) (ps : List (String × String))
    (r c : String) :
    countPair (p :: ps) r c =
      (if p.1 == r && p.2 == c then 1 else 0) + countPair ps r c := by
  unfold countPair
  rw [List.filter_cons]
  split
  · simp [Nat.add_comm]
  · simp

lemma countPair_groupPairs (rows : List Row) (rc cc r c : String) :
    countPair (rows.filterMap (fun row =>
      match lookupKey row rc, lookupKey row cc with
      | some a, some b => some (a, b)
      | _, _ => none)) r c
    = (rows.filter (fun row =>
        lookupKey row rc == some r && lookupKey row cc == some c)).length := by
  induction rows with
  | nil => rfl
  | cons row rest ih =>
    rw [List.filterMap_cons, List.filter_cons]
    cases h1 : lookupKey row rc with
    | none => simpa using ih
    | some a =>
      cases h2 : lookupKey row cc with
      | none => simpa using ih
      | some b =>
        simp only [countPair_cons]
        by_cases ha : a = r <;> by_cases hb : b = c <;>
          simp [ha, hb, ih, Nat.add_comm]

/-- C5: in a `groupby(...).size().unstack(fill_value=0)` aggregation, every
cell is exactly the number of filtered records whose row-key and column-key
cells match that cell's labels (hence never negative and 0 for an absent
combination), and every observed key value appears among the row or column
labels — nothing is dropped. -/
theorem unstack_cells_exact (df : Frame) (rc cc : String) (a : Agg)
    (h : groupbySizeUnstack df rc cc = .ok a) :
    (∀ r c, a.cell r c =
      (df.rows.filter (fun row =>
        lookupKey row rc == some r && lookupKey row cc == some c)).length) ∧
    (∀ row ∈ df.rows, ∀ rv cv,
      lookupKey row rc = some rv → lookupKey row cc = some cv →
      rv ∈ a.rows ∧ cv ∈ a.cols) := by
  obtain ⟨hr, hc, hcell⟩ := groupbySizeUnstack_ok h
  constructor
  · intro r c
    rw [hcell]
    exact countPair_groupPairs df.rows rc cc r c
  · intro row hrow rv cv h1 h2
    have hp : (rv, cv) ∈ groupPairs df rc cc :=
      mem_groupPairs.mpr ⟨row, hrow, h1, h2⟩
    constructor
    · rw [hr, mem_sortedDedup, List.mem_map]
      exact ⟨(rv, cv), hp, rfl⟩
    · rw [hc, mem_sortedDedup, List.mem_map]
      exact ⟨(rv, cv), hp, rfl⟩

/-- C5 witness: the cell and completeness facts at the concrete frame
`dfW4`, instantiated at the pair (TMC, RNAseq). -/
theorem unstack_cells_exact_witness :
    (aggOrD (groupbySizeUnstack dfW4 "Group Name" "Dataset Type")).cell
        "TMC" "RNAseq" =
      (dfW4.rows.filter (fun row =>
        lookupKey row "Group Name" == some "TMC" &&
        lookupKey row "Dataset Type" == some "RNAseq")).length ∧
    "TMC" ∈ (aggOrD (groupbySizeUnstack dfW4 "Group Name" "Dataset Type")).rows ∧
    "RNAseq" ∈
      (aggOrD (groupbySizeUnstack dfW4 "Group Name" "Dataset Type")).cols := by
  have h := unstack_cells_exact dfW4 "Group Name" "Dataset Type"
    (aggOrD (groupbySizeUnstack dfW4 "Group Name" "Dataset Type")) rfl
  refine ⟨h.1 "TMC" "RNAseq", ?_, ?_⟩
  · exact (h.2 dfW4.rows.head! (by decide) "TMC" "RNAseq" rfl rfl).1
  · exact (h.2 dfW4.rows.head! (by decide) "TMC" "RNAseq" rfl rfl).2

lemma groupbySizeUnstack_perm (df1 df2 : Frame) (rc cc : String)
    (hc : df1.cols = df2.cols) (hr : df1.rows.Perm df2.rows) :
    groupbySizeUnstack df1 rc cc = groupbySizeUnstack df2 rc cc := by
  have hkept : (groupPairs df1 rc cc).Perm (groupPairs df2 rc cc) :=
    hr.filterMap _
  unfold groupbySizeUnstack
  rw [hc]
  by_cases hmem : rc ∈ df2.cols ∧ cc ∈ df2.cols
  · rw [if_pos hmem, if_pos hmem]
    have e1 : sortedDedup ((groupPairs df1 rc cc).map Prod.fst)
        = sortedDedup ((groupPairs df2 rc cc).map Prod.fst) :=
      sortedDedup_perm_eq (hkept.map _)
    have e2 : sortedDedup ((groupPairs df1 rc cc).map Prod.snd)
        = sortedDedup ((groupPairs df2 rc cc).map Prod.snd) :=
      sortedDedup_perm_eq (hkept.map _)
    have e3 : (fun r c => countPair (groupPairs df1 rc cc) r c)
        = (fun r c => countPair (groupPairs df2 rc cc) r c) := by
      funext r c
      unfold countPair
      exact (hkept.filter _).length_eq
    rw [e1, e2, e3]
  · rw [if_neg hmem, if_neg hmem]

/-- C6: the aggregation results depend only on the multiset of records, not
on their order: under any permutation of the input rows, all three
aggregations produce the same cells and the same row totals. -/
theorem agg_perm_invariant (df1 df2 : Frame)
    (hc : df1.cols = df2.cols) (hr : df1.rows.Perm df2.rows) :
    (∀ a1 a2, aggGroupDataset df1 = .ok a1 → aggGroupDataset df2 = .ok a2 →
      (∀ r c, a1.cell r c = a2.cell r c) ∧
      (∀ r, rowTotal a1 r = rowTotal a2 r)) ∧
    (∀ a1 a2, aggDatasetGroup df1 = .ok a1 → aggDatasetGroup df2 = .ok a2 →
      (∀ r c, a1.cell r c = a2.cell r c) ∧
      (∀ r, rowTotal a1 r = rowTotal a2 r)) ∧
    (∀ a1 a2, aggDatasetStatus df1 = .ok a1 → aggDatasetStatus df2 = .ok a2 →
      (∀ r c, a1.cell r c = a2.cell r c) ∧
      (∀ r, rowTotal a1 r = rowTotal a2 r)) := by
  have h1 : aggGroupDataset df1 = aggGroupDataset df2 := by
    unfold aggGroupDataset
    rw [groupbySizeUnstack_perm df1 df2 _ _ hc hr]
  have h2 : aggDatasetGroup df1 = aggDatasetGroup df2 := by
    unfold aggDatasetGroup
    rw [groupbySizeUnstack_perm df1 df2 _ _ hc hr]
  have h3 : aggDatasetStatus df1 = aggDatasetStatus df2 := by
    unfold aggDatasetStatus
    rw [groupbySizeUnstack_perm df1 df2 _ _ hc hr]
  refine ⟨?_, ?_, ?_⟩ <;> intro a1 a2 ha1 ha2
  · rw [h1, ha2] at ha1
    injection ha1 with ha1
    subst ha1
    exact ⟨fun _ _ => rfl, fun _ => rfl⟩
  · rw [h2, ha2] at ha1
    injection ha1 with ha1
    subst ha1
    exact ⟨fun _ _ => rfl, fun _ => rfl⟩
  · rw [h3, ha2] at ha1
    injection ha1 with ha1
    subst ha1
    exact ⟨fun _ _ => rfl, fun _ => rfl⟩

/-- The frame `dfW4` with its rows in reversed order. -/
def dfW4rev : Frame :=
  ⟨["Group Name", "Dataset Type", "Status"],
   [[("Group Name", "CODCC"), ("Dataset Type", "RNAseq"), ("Status", "New")],
    [("Group Name", "TMC"), ("Dataset Type", "ATAC"), ("Status", "Published")],
    [("Group Name", "TMC"), ("Dataset Type", "RNAseq"), ("Status", "Published")]]⟩

/-- C6 witness: permuting the three concrete records leaves a cell and a row
total of the first aggregation unchanged. -/
theorem agg_perm_invariant_witness :
    (aggOrD (aggGroupDataset dfW4)).cell "TMC" "RNAseq" =
      (aggOrD (aggGroupDataset dfW4rev)).cell "TMC" "RNAseq" ∧
    rowTotal (aggOrD (aggGroupDataset dfW4)) "TMC" =
      rowTotal (aggOrD (aggGroupDataset dfW4rev)) "TMC" := by
  have h := (agg_perm_invariant dfW4 dfW4rev rfl (by decide)).1
    (aggOrD (aggGroupDataset dfW4)) (aggOrD (aggGroupDataset dfW4rev)) rfl rfl
  exact ⟨h.1 "TMC" "RNAseq", h.2 "TMC"⟩

lemma applyA_applyA (k : String) :
    applyRenameKey renameMapA (applyRenameKey renameMapA k)
      = applyRenameKey renameMapA k := by
  by_cases h1 : k = "dataset_type"
  · subst h1; rfl
  · by_cases h2 : k = "group_name"
    · subst h2; rfl
    · have n1 : ¬("dataset_type" = k) := fun h => h1 h.symm
      have n2 : ¬("group_name" = k) := fun h => h2 h.symm
      have hk : applyRenameKey renameMapA k = k := by
        simp [applyRenameKey, renameMapA, lookupKey, n1, n2]
      rw [hk]
      exact hk

lemma applyB_applyA (k : String) :
    applyRenameKey renameMapB (applyRenameKey renameMapA k)
      = applyRenameKey renameMapB k := by
  by_cases h1 : k = "dataset_type"
  · subst h1; rfl
  · by_cases h2 : k = "group_name"
    · subst h2; rfl
    · have n1 : ¬("dataset_type" = k) := fun h => h1 h.symm
      have n2 : ¬("group_name" = k) := fun h => h2 h.symm
      have hk : applyRenameKey renameMapA k = k := by
        simp [applyRenameKey, renameMapA, lookupKey, n1, n2]
      rw [hk]

lemma renameCols_AA (df : Frame) :
    renameCols renameMapA (renameCols renameMapA df)
      = renameCols renameMapA df := by
  simp only [renameCols]
  congr 1
  · rw [List.map_map]
    apply List.map_congr_left
    intro k _
    simp [Function.comp, applyA_applyA]
  · rw [List.map_map]
    apply List.map_congr_left
    intro row _
    simp only [Function.comp]
    unfold renameRow
    rw [List.map_map]
    apply List.map_congr_left
    intro p _
    simp [Function.comp, applyA_applyA]

lemma renameCols_BA (df : Frame) :
    renameCols renameMapB (renameCols renameMapA df)
      = renameCols renameMapB df := by
  simp only [renameCols]
  congr 1
  · rw [List.map_map]
    apply List.map_congr_left
    intro k _
    simp [Function.comp, applyB_applyA]
  · rw [List.map_map]
    apply List.map_congr_left
    intro row _
    simp only [Function.comp]
    unfold renameRow
    rw [List.map_map]
    apply List.map_congr_left
    intro p _
    simp [Function.comp, applyB_applyA]

lemma scriptPipeline_ok {data : Frame} {a1 a2 a3 : Agg}
    (h : scriptPipeline data = .ok (a1, a2, a3)) :
    ∃ df0, maskFilterEq data "dataset_status" "Primary" = .ok df0 ∧
      aggGroupDataset (renameCols renameMapA df0) = .ok a1 ∧
      aggDatasetGroup (renameCols renameMapA (renameCols renameMapA df0))
        = .ok a2 ∧
      aggDatasetStatus (renameCols renameMapB
        (renameCols renameMapA (renameCols renameMapA df0))) = .ok a3 := by
  unfold scriptPipeline at h
  cases hm : maskFilterEq data "dataset_status" "Primary" with
  | error e => rw [hm] at h; simp at h
  | ok df0 =>
    rw [hm] at h
    dsimp only at h
    cases hg1 : aggGroupDataset (renameCols renameMapA df0) with
    | error e => rw [hg1] at h; simp at h
    | ok b1 =>
      rw [hg1] at h
      dsimp only at h
      cases hg2 : aggDatasetGroup
          (renameCols renameMapA (renameCols renameMapA df0)) with
      | error e => rw [hg2] at h; simp at h
      | ok b2 =>
        rw [hg2] at h
        dsimp only at h
        cases hg3 : aggDatasetStatus (renameCols renameMapB
            (renameCols renameMapA (renameCols renameMapA df0))) with
        | error e => rw [hg3] at h; simp at h
        | ok b3 =>
          rw [hg3] at h
          simp only [Except.ok.injEq, Prod.mk.injEq] at h
          obtain ⟨e1, e2, e3⟩ := h
          subst e1
          subst e2
          subst e3
          exact ⟨df0, rfl, hg1, hg2, hg3⟩

/-- C8: the in-place renames shared between the three aggregation sections
do not couple them: whenever the script produces its three matrices, each
one equals the matrix obtained by running that aggregation alone on the
original input (filter plus that section's own rename only). -/
theorem agg_views_independent (data : Frame) (a1 a2 a3 : Agg)
    (h : scriptPipeline data = .ok (a1, a2, a3)) :
    aloneGroupDataset data = .ok a1 ∧
    aloneDatasetGroup data = .ok a2 ∧
    aloneDatasetStatus data = .ok a3 := by
  obtain ⟨df0, hm, hg1, hg2, hg3⟩ := scriptPipeline_ok h
  rw [renameCols_AA] at hg2
  rw [renameCols_AA, renameCols_BA] at hg3
  unfold aloneGroupDataset aloneDatasetGroup aloneDatasetStatus
  rw [hm]
  exact ⟨hg1, hg2, hg3⟩

/-- Extracts the three matrices from a successful script run. -/
def tripleOrD (e : Except PyExn (Agg × Agg × Agg)) : Agg × Agg × Agg :=
  match e with
  | .ok t => t
  | .error _ =>
    (⟨[], [], fun _ _ => 0⟩, ⟨[], [], fun _ _ => 0⟩, ⟨[], [], fun _ _ => 0⟩)

/-- The spec's example record set, as fetched data: three records, the
second of which is Derived. -/
def dataW : Frame :=
  ⟨["hubmap_id", "uuid", "dataset_type", "group_name", "status",
    "dataset_status"],
   [[("hubmap_id", "HBM1"), ("uuid", "u1"), ("dataset_type", "RNAseq"),
     ("group_name", "TMC"), ("status", "Published"),
     ("dataset_status", "Primary")],
    [("hubmap_id", "HBM2"), ("uuid", "u2"), ("dataset_type", "RNAseq[QA]"),
     ("group_name", "TMC"), ("status", "New"),
     ("dataset_status", "Derived")],
    [("hubmap_id", "HBM3"), ("uuid", "u3"), ("dataset_type", "RNAseq"),
     ("group_name", "CODCC"), ("status", "Published"),
     ("dataset_status", "Primary")]]⟩

/-- C8 witness: at the concrete record set `dataW` the script's three
matrices coincide with the stand-alone aggregations. -/
theorem agg_views_independent_witness :
    aloneGroupDataset dataW = .ok (tripleOrD (scriptPipeline dataW)).1 ∧
    aloneDatasetGroup dataW = .ok (tripleOrD (scriptPipeline dataW)).2.1 ∧
    aloneDatasetStatus dataW = .ok (tripleOrD (scriptPipeline dataW)).2.2 :=
  agg_views_independent dataW _ _ _ rfl

lemma sum_map_add (L : List String) (f g : String → Nat) :
    (L.map (fun x => f x + g x)).sum = (L.map f).sum + (L.map g).sum := by
  induction L with
  | nil => rfl
  | cons x xs ih =>
    simp only [List.map_cons, List.sum_cons, ih]
    omega

lemma sum_indicator (a : String) :
    ∀ L : List String, L.Nodup → a ∈ L →
      (L.map (fun x => if a == x then (1 : Nat) else 0)).sum = 1 := by
  intro L
  induction L with
  | nil => intro _ ha; cases ha
  | cons b t ih =>
    intro hN ha
    rw [List.nodup_cons] at hN
    rcases List.mem_cons.mp ha with heq | hmem
    · subst heq
      have hz : (t.map (fun x => if a = x then (1 : Nat) else 0)).sum = 0 := by
        apply List.sum_eq_zero
        intro y hy
        rw [List.mem_map] at hy
        obtain ⟨x, hx, hxy⟩ := hy
        rw [← hxy]
        have hne : ¬(a = x) := fun h => hN.1 (h ▸ hx)
        simp [hne]
      simp [hz]
    · have hna : ¬(a == b) = true := by
        simp only [beq_iff_eq]
        intro h
        exact hN.1 (h ▸ hmem)
      simp only [List.map_cons, List.sum_cons, hna, if_false]
      simpa using ih hN.2 hmem

/-- Every grouped pair lands in exactly one cell, so the cells of a dense
matrix whose labels cover the observed values sum to the number of grouped
pairs. -/
lemma sum_countPair_cells (R C : List String) (hR : R.Nodup) (hC : C.Nodup) :
    ∀ pairs : List (String × String),
      (∀ p ∈ pairs, p.1 ∈ R) → (∀ p ∈ pairs, p.2 ∈ C) →
      (R.map (fun r => (C.map (fun c => countPair pairs r c)).sum)).sum
        = pairs.length := by
  intro pairs
  induction pairs with
  | nil =>
    intro _ _
    simp [countPair]
  | cons p ps ih =>
    intro hRm hCm
    have hinner : ∀ r, (C.map (fun c => countPair (p :: ps) r c)).sum
        = (if p.1 == r then 1 else 0)
          + (C.map (fun c => countPair ps r c)).sum := by
      intro r
      rw [List.map_congr_left (fun c _ => countPair_cons p ps r c),
        sum_map_add]
      congr 1
      by_cases hr : p.1 = r
      · simp only [hr, beq_self_eq_true, Bool.true_and, if_true]
        exact sum_indicator p.2 C hC (hCm p (List.mem_cons_self p ps))
      · have hfalse : (p.1 == r) = false := by simp [hr]
        simp [hfalse]
    rw [List.map_congr_left (fun r _ => hinner r), sum_map_add,
      ih (fun q hq => hRm q (List.mem_cons_of_mem _ hq))
        (fun q hq => hCm q (List.mem_cons_of_mem _ hq)),
      sum_indicator p.1 R hR (hRm p (List.mem_cons_self p ps))]
    simp [Nat.add_comm]

lemma groupPairs_length (rc cc : String) :
    ∀ rows : List Row,
      (∀ row ∈ rows, (lookupKey row rc).isSome ∧ (lookupKey row cc).isSome) →
      (rows.filterMap (fun row =>
        match lookupKey row rc, lookupKey row cc with
        | some a, some b => some (a, b)
        | _, _ => none)).length = rows.length := by
  intro rows
  induction rows with
  | nil => intro _; rfl
  | cons row rest ih =>
    intro h
    obtain ⟨h1, h2⟩ := h row (List.mem_cons_self row rest)
    rw [Option.isSome_iff_exists] at h1 h2
    obtain ⟨a, ha⟩ := h1
    obtain ⟨b, hb⟩ := h2
    rw [List.filterMap_cons]
    simp only [ha, hb]
    simp [ih (fun r hr => h r (List.mem_cons_of_mem _ hr))]

/-- The cells of one `groupby(...).size().unstack(fill_value=0)` matrix sum
to the number of input rows, provided every row carries both key fields. -/
lemma sumCells_agg {df : Frame} {rc cc : String} {g : Agg}
    (hg : groupbySizeUnstack df rc cc = .ok g)
    (hall : ∀ row ∈ df.rows,
      (lookupKey row rc).isSome ∧ (lookupKey row cc).isSome) :
    sumCells g = df.rows.length := by
  obtain ⟨hr, hc, hcell⟩ := groupbySizeUnstack_ok hg
  unfold sumCells
  rw [hr, hc, hcell]
  rw [sum_countPair_cells _ _ (sortedDedup_nodup _) (sortedDedup_nodup _)
    (groupPairs df rc cc)
    (fun p hp => mem_sortedDedup.mpr (List.mem_map.mpr ⟨p, hp, rfl⟩))
    (fun p hp => mem_sortedDedup.mpr (List.mem_map.mpr ⟨p, hp, rfl⟩))]
  exact groupPairs_length rc cc df.rows hall

lemma sumCells_eq_of (a g : Agg) (hrows : a.rows.Perm g.rows)
    (hcols : a.cols = g.cols) (hcell : a.cell = g.cell) :
    sumCells a = sumCells g := by
  unfold sumCells
  rw [hcols, hcell]
  exact (hrows.map _).sum_eq

lemma maskFilterEq_ok {data : Frame} {col val : String} {df : Frame}
    (h : maskFilterEq data col val = .ok df) :
    df = ⟨data.cols,
      data.rows.filter (fun row => lookupKey row col == some val)⟩ := by
  unfold maskFilterEq at h
  split at h
  · injection h with h
    exact h.symm
  · simp at h

/-- What one rename does to one column name, written out. -/
lemma applyA_cases (k : String) :
    applyRenameKey renameMapA k =
      if k = "dataset_type" then "Dataset Type"
      else if k = "group_name" then "Group Name" else k := by
  by_cases h1 : k = "dataset_type"
  · subst h1; rfl
  · by_cases h2 : k = "group_name"
    · subst h2; rfl
    · have n1 : ¬("dataset_type" = k) := fun h => h1 h.symm
      have n2 : ¬("group_name" = k) := fun h => h2 h.symm
      simp [applyRenameKey, renameMapA, lookupKey, n1, n2, h1, h2]

lemma applyB_cases (k : String) :
    applyRenameKey renameMapB k =
      if k = "dataset_type" then "Dataset Type"
      else if k = "group_name" then "Group Name"
      else if k = "status" then "Status" else k := by
  by_cases h1 : k = "dataset_type"
  · subst h1; rfl
  · by_cases h2 : k = "group_name"
    · subst h2; rfl
    · by_cases h3 : k = "status"
      · subst h3; rfl
      · have n1 : ¬("dataset_type" = k) := fun h => h1 h.symm
        have n2 : ¬("group_name" = k) := fun h => h2 h.symm
        have n3 : ¬("status" = k) := fun h => h3 h.symm
        simp [applyRenameKey, renameMapB, lookupKey, n1, n2, n3, h1, h2, h3]

lemma hinj_A_group :
    ∀ k, applyRenameKey renameMapA k = "Group Name" →
      k = "group_name" ∨ k = "Group Name" := by
  intro k h
  rw [applyA_cases] at h
  split_ifs at h with hh1 hh2
  · exact absurd h (by decide)
  · exact Or.inl hh2
  · exact Or.inr h

lemma hinj_A_dataset :
    ∀ k, applyRenameKey renameMapA k = "Dataset Type" →
      k = "dataset_type" ∨ k = "Dataset Type" := by
  intro k h
  rw [applyA_cases] at h
  split_ifs at h with hh1 hh2
  · exact Or.inl hh1
  · exact absurd h (by decide)
  · exact Or.inr h

lemma hinj_B_dataset :
    ∀ k, applyRenameKey renameMapB k = "Dataset Type" →
      k = "dataset_type" ∨ k = "Dataset Type" := by
  intro k h
  rw [applyB_cases] at h
  split_ifs at h with hh1 hh2 hh3
  · exact Or.inl hh1
  · exact absurd h (by decide)
  · exact absurd h (by decide)
  · exact Or.inr h

lemma hinj_B_status :
    ∀ k, applyRenameKey renameMapB k = "Status" →
      k = "status" ∨ k = "Status" := by
  intro k h
  rw [applyB_cases] at h
  split_ifs at h with hh1 hh2 hh3
  · exact absurd h (by decide)
  · exact absurd h (by decide)
  · exact Or.inl hh3
  · exact Or.inr h

/-- When no existing column already carries the renamed display name, the
renamed row answers a lookup of the display name exactly as the original row
answers the source name. -/
lemma lookupKey_renameRow (m : List (String × String)) (src tgt : String)
    (hm : applyRenameKey m src = tgt)
    (hinj : ∀ k, applyRenameKey m k = tgt → k = src ∨ k = tgt) :
    ∀ row : Row, lookupKey row tgt = none →
      lookupKey (renameRow m row) tgt = lookupKey row src := by
  intro row
  induction row with
  | nil => intro _; rfl
  | cons p rest ih =>
    obtain ⟨k, v⟩ := p
    intro hcol
    simp only [lookupKey] at hcol
    by_cases hk : k = tgt
    · rw [if_pos hk] at hcol
      cases hcol
    · rw [if_neg hk] at hcol
      simp only [renameRow, List.map_cons]
      by_cases hak : applyRenameKey m k = tgt
      · rcases hinj k hak with hks | hkt
        · subst hks
          simp only [lookupKey]
          simp [hak]
        · exact absurd hkt hk
      · have hksrc : ¬(k = src) := fun h => hak (h ▸ hm)
        simp only [lookupKey, if_neg hak, if_neg hksrc]
        exact ih hcol

/-- C10 amended: whenever the script runs to completion on records whose
Primary rows carry the three key fields (under their source names, with no
column already named like a display name), the cells of the second matrix
always sum to the number of Primary records; the first and third matrices
do too provided no Primary record's dataset type (respectively status) is
the literal string "Total", since such a column is overwritten by the Total
bookkeeping column and dropped, losing those records. -/
theorem sum_cells_amended (data : Frame) (a1 a2 a3 : Agg)
    (h : scriptPipeline data = .ok (a1, a2, a3))
    (hshape : ∀ row ∈ data.rows,
      lookupKey row "dataset_status" = some "Primary" →
      (lookupKey row "dataset_type").isSome ∧
      (lookupKey row "group_name").isSome ∧
      (lookupKey row "status").isSome ∧
      lookupKey row "Dataset Type" = none ∧
      lookupKey row "Group Name" = none ∧
      lookupKey row "Status" = none) :
    ((∀ row ∈ data.rows, lookupKey row "dataset_status" = some "Primary" →
        lookupKey row "dataset_type" ≠ some "Total") →
      sumCells a1 = primaryCount data) ∧
    sumCells a2 = primaryCount data ∧
    ((∀ row ∈ data.rows, lookupKey row "dataset_status" = some "Primary" →
        lookupKey row "status" ≠ some "Total") →
      sumCells a3 = primaryCount data) := by
  obtain ⟨df0, hm, hg1, hg2, hg3⟩ := scriptPipeline_ok h
  rw [renameCols_AA] at hg2
  rw [renameCols_AA, renameCols_BA] at hg3
  have hdf0 := maskFilterEq_ok hm
  have hmem0 : ∀ row ∈ df0.rows,
      row ∈ data.rows ∧ lookupKey row "dataset_status" = some "Primary" := by
    intro row hrow
    simp only [hdf0] at hrow
    have h2 := List.mem_filter.mp hrow
    exact ⟨h2.1, eq_of_beq h2.2⟩
  have hshape0 : ∀ row ∈ df0.rows,
      (lookupKey row "dataset_type").isSome ∧
      (lookupKey row "group_name").isSome ∧
      (lookupKey row "status").isSome ∧
      lookupKey row "Dataset Type" = none ∧
      lookupKey row "Group Name" = none ∧
      lookupKey row "Status" = none :=
    fun row hrow => hshape row (hmem0 row hrow).1 (hmem0 row hrow).2
  have hlen0 : df0.rows.length = primaryCount data := by
    rw [hdf0]
    rfl
  have hlookA : ∀ row ∈ df0.rows,
      lookupKey (renameRow renameMapA row) "Group Name"
        = lookupKey row "group_name" ∧
      lookupKey (renameRow renameMapA row) "Dataset Type"
        = lookupKey row "dataset_type" := by
    intro row hrow
    obtain ⟨_, _, _, hDT, hGN, _⟩ := hshape0 row hrow
    exact ⟨lookupKey_renameRow renameMapA "group_name" "Group Name" rfl
        hinj_A_group row hGN,
      lookupKey_renameRow renameMapA "dataset_type" "Dataset Type" rfl
        hinj_A_dataset row hDT⟩
  have hlookB : ∀ row ∈ df0.rows,
      lookupKey (renameRow renameMapB row) "Dataset Type"
        = lookupKey row "dataset_type" ∧
      lookupKey (renameRow renameMapB row) "Status"
        = lookupKey row "status" := by
    intro row hrow
    obtain ⟨_, _, _, hDT, _, hST⟩ := hshape0 row hrow
    exact ⟨lookupKey_renameRow renameMapB "dataset_type" "Dataset Type" rfl
        hinj_B_dataset row hDT,
      lookupKey_renameRow renameMapB "status" "Status" rfl
        hinj_B_status row hST⟩
  have hall1 : ∀ row ∈ (renameCols renameMapA df0).rows,
      (lookupKey row "Group Name").isSome ∧
      (lookupKey row "Dataset Type").isSome := by
    intro row hrow
    rw [show (renameCols renameMapA df0).rows
        = df0.rows.map (renameRow renameMapA) from rfl, List.mem_map] at hrow
    obtain ⟨r0, hr0, hr0eq⟩ := hrow
    subst hr0eq
    obtain ⟨hdt, hgn, _, _, _, _⟩ := hshape0 r0 hr0
    obtain ⟨e1, e2⟩ := hlookA r0 hr0
    rw [e1, e2]
    exact ⟨hgn, hdt⟩
  have hall3 : ∀ row ∈ (renameCols renameMapB df0).rows,
      (lookupKey row "Dataset Type").isSome ∧
      (lookupKey row "Status").isSome := by
    intro row hrow
    rw [show (renameCols renameMapB df0).rows
        = df0.rows.map (renameRow renameMapB) from rfl, List.mem_map] at hrow
    obtain ⟨r0, hr0, hr0eq⟩ := hrow
    subst hr0eq
    obtain ⟨hdt, _, hst, _, _, _⟩ := hshape0 r0 hr0
    obtain ⟨e1, e2⟩ := hlookB r0 hr0
    rw [e1, e2]
    exact ⟨hdt, hst⟩
  have hlenA : (renameCols renameMapA df0).rows.length = df0.rows.length := by
    simp [renameCols]
  have hlenB : (renameCols renameMapB df0).rows.length = df0.rows.length := by
    simp [renameCols]
  refine ⟨?_, ?_, ?_⟩
  · intro hT1
    have hTdf1 : ∀ row ∈ (renameCols renameMapA df0).rows,
        lookupKey row "Dataset Type" ≠ some "Total" := by
      intro row hrow
      rw [show (renameCols renameMapA df0).rows
          = df0.rows.map (renameRow renameMapA) from rfl, List.mem_map] at hrow
      obtain ⟨r0, hr0, hr0eq⟩ := hrow
      subst hr0eq
      rw [(hlookA r0 hr0).2]
      exact hT1 r0 (hmem0 r0 hr0).1 (hmem0 r0 hr0).2
    obtain ⟨g1, hgb1, ha1⟩ := aggGroupDataset_ok hg1
    have hq1 : sumCells a1 = sumCells g1 := by
      subst ha1
      exact sumCells_eq_of _ g1 (List.perm_insertionSort _ _)
        (totalSorted_rows hgb1 hTdf1).1 rfl
    rw [hq1, sumCells_agg hgb1 hall1, hlenA, hlen0]
  · obtain ⟨g2, hgb2, ha2⟩ := aggDatasetGroup_ok hg2
    have hall2 : ∀ row ∈ (renameCols renameMapA df0).rows,
        (lookupKey row "Dataset Type").isSome ∧
        (lookupKey row "Group Name").isSome :=
      fun row hrow => ⟨(hall1 row hrow).2, (hall1 row hrow).1⟩
    have hq2 : sumCells a2 = sumCells g2 := by
      subst ha2
      refine sumCells_eq_of _ g2 (List.Perm.refl _) ?_ rfl
      obtain ⟨_, hc2, _⟩ := groupbySizeUnstack_ok hgb2
      show List.insertionSort (fun a b => a ≤ b) g2.cols = g2.cols
      apply List.Sorted.insertionSort_eq
      rw [hc2]
      exact sortedDedup_sorted _
    rw [hq2, sumCells_agg hgb2 hall2, hlenA, hlen0]
  · intro hT3
    have hTdf3 : ∀ row ∈ (renameCols renameMapB df0).rows,
        lookupKey row "Status" ≠ some "Total" := by
      intro row hrow
      rw [show (renameCols renameMapB df0).rows
          = df0.rows.map (renameRow renameMapB) from rfl, List.mem_map] at hrow
      obtain ⟨r0, hr0, hr0eq⟩ := hrow
      subst hr0eq
      rw [(hlookB r0 hr0).2]
      exact hT3 r0 (hmem0 r0 hr0).1 (hmem0 r0 hr0).2
    obtain ⟨g3, hgb3, ha3⟩ := aggDatasetStatus_ok hg3
    have hq3 : sumCells a3 = sumCells g3 := by
      subst ha3
      exact sumCells_eq_of _ g3 (List.perm_insertionSort _ _)
        (totalSorted_rows hgb3 hTdf3).1 rfl
    rw [hq3, sumCells_agg hgb3 hall3, hlenB, hlen0]

/-- A fetched record set with one Primary record whose dataset type is the
literal string "Total". -/
def dataTotal : Frame :=
  ⟨["hubmap_id", "dataset_type", "group_name", "status", "dataset_status"],
   [[("hubmap_id", "HBM9"), ("dataset_type", "Total"), ("group_name", "TMC"),
     ("status", "New"), ("dataset_status", "Primary")]]⟩

/-- C10 counterexample: with one Primary record whose dataset type is
"Total", the first matrix's cells sum to 0, not to the Primary count 1: the
record's column is overwritten by the bookkeeping Total column and then
dropped. -/
theorem total_column_lost_counterexample :
    Except.map (fun t => sumCells t.1) (scriptPipeline dataTotal) = .ok 0 ∧
    primaryCount dataTotal = 1 := ⟨rfl, rfl⟩

/-- C10 amended witness: on the concrete record set `dataW` (no "Total"
values), all three matrices sum to the Primary count; and on `dataTotal`,
whose only Primary record has dataset type "Total", the second matrix still
does, unconditionally. -/
theorem sum_cells_amended_witness :
    sumCells (tripleOrD (scriptPipeline dataW)).1 = primaryCount dataW ∧
    sumCells (tripleOrD (scriptPipeline dataW)).2.1 = primaryCount dataW ∧
    sumCells (tripleOrD (scriptPipeline dataW)).2.2 = primaryCount dataW ∧
    sumCells (tripleOrD (scriptPipeline dataTotal)).2.1
      = primaryCount dataTotal := by
  have hW := sum_cells_amended dataW _ _ _ rfl (by decide)
  have hT := sum_cells_amended dataTotal _ _ _ rfl (by decide)
  exact ⟨hW.1 (by decide), hW.2.1, hW.2.2 (by decide), hT.2.1⟩

end App
